import Mathlib

/-!
Verification of the fleet-management dashboard core logic.

The definitions below are a shallow embedding of the TypeScript source:
  - RemindersPanel: isReminderDue, getCurrentMileage, handleCompleteReminder
  - FieldManager: validateForm / handleSubmit / handleDeleteField
  - VehicleForm: validateForm / handleSubmit
  - FleetDashboard: handleSaveVehicle, onDeleteVehicle

JavaScript string/number idioms used by the source are modelled explicitly:
  - toLowerCase / trim are modelled character-wise over ASCII (jsToLower, jsTrim);
  - the short-circuit x || y on numbers and strings (jsOrInt, jsOrStr);
  - truthiness of custom-field values (isFalsy);
  - a Date parsed from a date-only string YYYY-MM-DD denotes UTC midnight of
    that calendar day, so it is represented by its day number, and its
    timestamp in milliseconds is day * msPerDay; new Date() is the current
    timestamp in milliseconds.
-/

namespace VanVision

/-- ASCII-wise lowercase, modelling JavaScript toLowerCase on the
field/vehicle names appearing in the source. -/
def jsToLower (s : String) : String := String.mk (s.data.map Char.toLower)

/-- Strip leading and trailing whitespace, modelling JavaScript trim. -/
def jsTrim (s : String) : String :=
  String.mk (((s.data.dropWhile Char.isWhitespace).reverse.dropWhile
    Char.isWhitespace).reverse)

/-- JavaScript a || b on numbers: a number is falsy exactly when it is 0
(NaN is not representable here). -/
def jsOrInt (a b : Int) : Int := if a = 0 then b else a

/-- JavaScript a || b on strings: a string is falsy exactly when empty. -/
def jsOrStr (a b : String) : String := if a = "" then b else a

/-- Vehicle.status values of the source union type. -/
inductive VStatus
  | available
  | inUse
  | maintenance
  | inactive
deriving DecidableEq, Repr

/-- Values stored in a vehicle customFields record (the source type is
Record<string, any>; the values actually stored are strings, numbers and
booleans). -/
inductive CFValue
  | vStr (s : String)
  | vNum (n : Int)
  | vBool (b : Bool)
deriving DecidableEq, Repr

/-- JavaScript truthiness test used by VehicleForm validateForm
(!formData.customFields[field.name]). -/
def isFalsy : CFValue → Bool
  | CFValue.vStr s => s = ""
  | CFValue.vNum n => n = 0
  | CFValue.vBool b => !b

/-- Truthiness of a possibly-absent property: an absent key reads as
undefined, which is falsy. -/
def isFalsyOpt : Option CFValue → Bool
  | none => true
  | some v => isFalsy v

/-- Vehicle record, as declared in the source. -/
structure Vehicle where
  id : String
  name : String
  status : VStatus
  mileage : Int
  customFields : List (String × CFValue)
  documents : List String
  lastUpdated : String
  updatedBy : String
deriving DecidableEq, Repr

/-- CustomField.type values of the source union type. -/
inductive FieldType
  | text
  | number
  | dropdown
deriving DecidableEq, Repr

/-- Dropdown option with its optional color tag (FieldManager). -/
structure DropdownOption where
  value : String
  color : Option String
deriving DecidableEq, Repr

/-- Custom field definition, as declared in FieldManager. -/
structure CustomField where
  id : String
  name : String
  type : FieldType
  options : Option (List DropdownOption)
  required : Bool
deriving DecidableEq, Repr

/-- Reminder.triggerType values of the source union type. -/
inductive TriggerType
  | date
  | mileage
deriving DecidableEq, Repr

/-- Reminder.triggerValue is string | number in the source: a date-only
string (represented by its UTC day number) or a mileage number. -/
inductive TriggerValue
  | date (day : Int)
  | mileage (m : Int)
deriving DecidableEq, Repr

/-- Reminder.status values of the source union type. -/
inductive RStatus
  | incomplete
  | complete
deriving DecidableEq, Repr

/-- Reminder record, as declared in the source. -/
structure Reminder where
  id : String
  vehicleId : String
  description : String
  triggerType : TriggerType
  triggerValue : TriggerValue
  status : RStatus
  completedAt : Option String
  completedBy : Option String
deriving DecidableEq, Repr

/-- Milliseconds per day; a Date parsed from a date-only string denotes UTC
midnight, i.e. timestamp day * msPerDay. -/
def msPerDay : Int := 86400000

/-- Timestamp denoted by new Date(triggerValue): a date-only string parses
to UTC midnight of its day; a number n parses to the timestamp n. -/
def triggerTimestamp : TriggerValue → Int
  | TriggerValue.date d => d * msPerDay
  | TriggerValue.mileage m => m

/-- Numeric reading of triggerValue used by the mileage branch: a
YYYY-MM-DD string coerces to NaN in JavaScript, whose comparisons are all
false, modelled as none. -/
def triggerNumber : TriggerValue → Option Int
  | TriggerValue.mileage m => some m
  | TriggerValue.date _ => none

/-- RemindersPanel getCurrentMileage: vehicles.find(v => v.id ===
vehicleId)?.mileage || 0. -/
def getCurrentMileage (vehicles : List Vehicle) (vehicleId : String) : Int :=
  match vehicles.find? (fun v => v.id == vehicleId) with
  | some v => jsOrInt v.mileage 0
  | none => 0

/-- RemindersPanel isReminderDue: complete reminders are never due; a date
reminder is due when its parsed trigger date is <= now; a mileage reminder
is due when the referenced vehicle's current mileage is >= triggerValue. -/
def isReminderDue (vehicles : List Vehicle) (r : Reminder) (now : Int) : Bool :=
  if r.status = RStatus.complete then false
  else if r.triggerType = TriggerType.date then
    decide (triggerTimestamp r.triggerValue ≤ now)
  else
    match triggerNumber r.triggerValue with
    | some m => decide (m ≤ getCurrentMileage vehicles r.vehicleId)
    | none => false

/-- RemindersPanel handleCompleteReminder: stamp the matching reminder
complete with the current clock string and the fixed current user. -/
def handleCompleteReminder (reminders : List Reminder) (reminderId : String)
    (nowStr : String) : List Reminder :=
  reminders.map (fun r =>
    if r.id = reminderId then
      { r with status := RStatus.complete, completedAt := some nowStr,
               completedBy := some "Current User" }
    else r)

/-- Claim C1: for an incomplete reminder with triggerType date, the
due-state evaluator reports due exactly when the trigger day is at most
the calendar day containing now (now / msPerDay); in particular the answer
is independent of the time of day within that calendar day. -/
theorem isReminderDue_date_iff_day_le
    (vehicles : List Vehicle) (r : Reminder) (now d : Int)
    (hs : r.status = RStatus.incomplete) (ht : r.triggerType = TriggerType.date)
    (hv : r.triggerValue = TriggerValue.date d) :
    (isReminderDue vehicles r now = true ↔ d ≤ now / msPerDay)
    ∧ (∀ now2 : Int, now / msPerDay = now2 / msPerDay →
        isReminderDue vehicles r now = isReminderDue vehicles r now2) := by
  have hmain : ∀ t : Int, (isReminderDue vehicles r t = true ↔ d ≤ t / msPerDay) := by
    intro t
    unfold isReminderDue
    rw [hs, ht, hv]
    simp only [reduceCtorEq, if_false, if_true, triggerTimestamp,
      decide_eq_true_eq, msPerDay]
    omega
  refine ⟨hmain now, ?_⟩
  intro now2 h2
  have h1 := hmain now
  have h2' := hmain now2
  rw [h2] at h1
  cases hb : isReminderDue vehicles r now2 with
  | false =>
      cases hb2 : isReminderDue vehicles r now with
      | false => rfl
      | true => exact absurd (h2'.mpr (h1.mp hb2)) (by simp [hb])
  | true => exact h1.mpr (h2'.mp hb)

/-- Concrete instance of C1: a reminder whose trigger day is 2 is due at a
timestamp in the middle of day 2. -/
theorem isReminderDue_date_iff_day_le_witness :
    isReminderDue []
      { id := "1", vehicleId := "1", description := "Annual inspection due",
        triggerType := TriggerType.date, triggerValue := TriggerValue.date 2,
        status := RStatus.incomplete, completedAt := none, completedBy := none }
      (2 * 86400000 + 43200000) = true :=
  (isReminderDue_date_iff_day_le []
    { id := "1", vehicleId := "1", description := "Annual inspection due",
      triggerType := TriggerType.date, triggerValue := TriggerValue.date 2,
      status := RStatus.incomplete, completedAt := none, completedBy := none }
    (2 * 86400000 + 43200000) 2 rfl rfl rfl).1.mpr (by decide)

/-- Claim C2: for an incomplete reminder with triggerType mileage, the
due-state evaluator reports due exactly when the referenced vehicle's
current mileage is at least triggerValue; if no vehicle carries the
referenced id, the current mileage reads 0, so the reminder is due exactly
when triggerValue is at most 0. -/
theorem isReminderDue_mileage_spec
    (vehicles : List Vehicle) (r : Reminder) (now m : Int)
    (hs : r.status = RStatus.incomplete)
    (ht : r.triggerType = TriggerType.mileage)
    (hv : r.triggerValue = TriggerValue.mileage m) :
    (isReminderDue vehicles r now = true ↔
      m ≤ getCurrentMileage vehicles r.vehicleId)
    ∧ ((∀ v ∈ vehicles, v.id ≠ r.vehicleId) →
        getCurrentMileage vehicles r.vehicleId = 0
        ∧ (isReminderDue vehicles r now = true ↔ m ≤ 0)) := by
  have hdue : isReminderDue vehicles r now
      = decide (m ≤ getCurrentMileage vehicles r.vehicleId) := by
    unfold isReminderDue
    rw [hs, ht, hv]
    simp [triggerNumber]
  have hiff : isReminderDue vehicles r now = true ↔
      m ≤ getCurrentMileage vehicles r.vehicleId := by
    rw [hdue]; exact decide_eq_true_iff
  refine ⟨hiff, ?_⟩
  intro habs
  have hfind : vehicles.find? (fun v => v.id == r.vehicleId) = none := by
    apply List.find?_eq_none.mpr
    intro v hvmem
    simpa using habs v hvmem
  have hmil : getCurrentMileage vehicles r.vehicleId = 0 := by
    unfold getCurrentMileage
    rw [hfind]
  refine ⟨hmil, ?_⟩
  rw [hiff, hmil]

/-- Concrete instance of C2, the scenario from the spec: an oil-change
reminder at 40000 miles is not due at mileage 38920 and due at 40000; a
reminder referencing a missing vehicle with a positive threshold is not
due. -/
theorem isReminderDue_mileage_spec_witness :
    (isReminderDue
      [{ id := "2", name := "Fleet Van 002", status := VStatus.inUse,
         mileage := 38920, customFields := [], documents := [],
         lastUpdated := "2024-01-14 15:45", updatedBy := "Sarah Johnson" }]
      { id := "2", vehicleId := "2", description := "Oil change required",
        triggerType := TriggerType.mileage, triggerValue := TriggerValue.mileage 40000,
        status := RStatus.incomplete, completedAt := none, completedBy := none }
      0 = false)
    ∧ (isReminderDue
      [{ id := "2", name := "Fleet Van 002", status := VStatus.inUse,
         mileage := 40000, customFields := [], documents := [],
         lastUpdated := "2024-01-14 15:45", updatedBy := "Sarah Johnson" }]
      { id := "2", vehicleId := "2", description := "Oil change required",
        triggerType := TriggerType.mileage, triggerValue := TriggerValue.mileage 40000,
        status := RStatus.incomplete, completedAt := none, completedBy := none }
      0 = true)
    ∧ (isReminderDue []
      { id := "2", vehicleId := "2", description := "Oil change required",
        triggerType := TriggerType.mileage, triggerValue := TriggerValue.mileage 40000,
        status := RStatus.incomplete, completedAt := none, completedBy := none }
      0 = false) := by
  refine ⟨?_, ?_, ?_⟩
  · have h := (isReminderDue_mileage_spec
      [{ id := "2", name := "Fleet Van 002", status := VStatus.inUse,
         mileage := 38920, customFields := [], documents := [],
         lastUpdated := "2024-01-14 15:45", updatedBy := "Sarah Johnson" }]
      { id := "2", vehicleId := "2", description := "Oil change required",
        triggerType := TriggerType.mileage, triggerValue := TriggerValue.mileage 40000,
        status := RStatus.incomplete, completedAt := none, completedBy := none }
      0 40000 rfl rfl rfl).1
    cases hb : isReminderDue
      [{ id := "2", name := "Fleet Van 002", status := VStatus.inUse,
         mileage := 38920, customFields := [], documents := [],
         lastUpdated := "2024-01-14 15:45", updatedBy := "Sarah Johnson" }]
      { id := "2", vehicleId := "2", description := "Oil change required",
        triggerType := TriggerType.mileage, triggerValue := TriggerValue.mileage 40000,
        status := RStatus.incomplete, completedAt := none, completedBy := none }
      0 with
    | false => rfl
    | true => exact absurd (h.mp hb) (by decide)
  · exact (isReminderDue_mileage_spec
      [{ id := "2", name := "Fleet Van 002", status := VStatus.inUse,
         mileage := 40000, customFields := [], documents := [],
         lastUpdated := "2024-01-14 15:45", updatedBy := "Sarah Johnson" }]
      { id := "2", vehicleId := "2", description := "Oil change required",
        triggerType := TriggerType.mileage, triggerValue := TriggerValue.mileage 40000,
        status := RStatus.incomplete, completedAt := none, completedBy := none }
      0 40000 rfl rfl rfl).1.mpr (by decide)
  · have h := ((isReminderDue_mileage_spec []
      { id := "2", vehicleId := "2", description := "Oil change required",
        triggerType := TriggerType.mileage, triggerValue := TriggerValue.mileage 40000,
        status := RStatus.incomplete, completedAt := none, completedBy := none }
      0 40000 rfl rfl rfl).2 (by intro v hv; cases hv)).2
    cases hb : isReminderDue []
      { id := "2", vehicleId := "2", description := "Oil change required",
        triggerType := TriggerType.mileage, triggerValue := TriggerValue.mileage 40000,
        status := RStatus.incomplete, completedAt := none, completedBy := none }
      0 with
    | false => rfl
    | true => exact absurd (h.mp hb) (by decide)

/-- Claim C3: a reminder whose status is complete is never reported due,
whatever its trigger type and value, the vehicle collection, and now. -/
theorem isReminderDue_complete_false
    (vehicles : List Vehicle) (r : Reminder) (now : Int)
    (hs : r.status = RStatus.complete) :
    isReminderDue vehicles r now = false := by
  unfold isReminderDue
  rw [hs]
  simp

/-- Concrete instance of C3, the scenario from the spec: the completed
brake-inspection reminder with a past trigger date is not due. -/
theorem isReminderDue_complete_false_witness :
    isReminderDue []
      { id := "3", vehicleId := "3", description := "Brake inspection",
        triggerType := TriggerType.date, triggerValue := TriggerValue.date 19742,
        status := RStatus.complete, completedAt := some "2024-01-18 14:30",
        completedBy := some "Mike Wilson" }
      99999999999999 = false :=
  isReminderDue_complete_false []
    { id := "3", vehicleId := "3", description := "Brake inspection",
      triggerType := TriggerType.date, triggerValue := TriggerValue.date 19742,
      status := RStatus.complete, completedAt := some "2024-01-18 14:30",
      completedBy := some "Mike Wilson" }
    99999999999999 rfl

/-- In-progress field form state of FieldManager (formData). -/
structure FieldFormData where
  name : String
  type : FieldType
  options : List DropdownOption
  required : Bool
deriving DecidableEq, Repr

/-- FieldManager validateForm: an empty (after trim) name is rejected as
required; otherwise a name whose lowercase form equals the lowercase form
of another field (any field when adding, any field with a different id
when editing) is rejected as already existing; a dropdown with no options
is rejected. Errors are keyed as in the source error record. -/
def validateFieldForm (fields : List CustomField) (editingId : Option String)
    (fd : FieldFormData) : List (String × String) :=
  (if jsTrim fd.name = "" then [("name", "Field name is required")]
   else if fields.any (fun f =>
       jsToLower f.name == jsToLower fd.name && !(some f.id == editingId)) then
     [("name", "Field name already exists")]
   else [])
  ++ (if fd.type = FieldType.dropdown ∧ fd.options.length = 0 then
        [("options", "At least one option is required for dropdown fields")]
      else [])

/-- The CustomField record built by FieldManager handleSubmit: the saved
name is the trimmed form value; options are kept only for dropdowns. -/
def fieldDataOf (editing : Option CustomField) (newId : String)
    (fd : FieldFormData) : CustomField :=
  { id := match editing with
          | some f => f.id
          | none => newId
    name := jsTrim fd.name
    type := fd.type
    options := if fd.type = FieldType.dropdown then some fd.options else none
    required := fd.required }

/-- Result of submitting the field form: the new schema on success, the
validation errors on rejection (the schema is left unchanged). -/
inductive FieldSaveResult
  | ok (fields : List CustomField)
  | rejected (errs : List (String × String))
deriving DecidableEq, Repr

/-- FieldManager handleSubmit: validate, then either replace the edited
field by id (updateField) or append the new field (addField). -/
def submitField (fields : List CustomField) (editing : Option CustomField)
    (newId : String) (fd : FieldFormData) : FieldSaveResult :=
  let errs := validateFieldForm fields (editing.map (fun f => f.id)) fd
  if errs = [] then
    match editing with
    | some e => FieldSaveResult.ok (fields.map (fun f =>
        if f.id = e.id then fieldDataOf editing newId fd else f))
    | none => FieldSaveResult.ok (fields ++ [fieldDataOf editing newId fd])
  else FieldSaveResult.rejected errs

/-- No two fields of a schema share a case-insensitively equal name. -/
def namesCaseInsensitivelyDistinct (fields : List CustomField) : Prop :=
  List.Pairwise (fun a b => jsToLower a.name ≠ jsToLower b.name) fields

/-- Mock field 2 of the source data. -/
def licensePlateField : CustomField :=
  { id := "2", name := "License Plate", type := FieldType.text,
    options := none, required := true }

/-- Claim C4 (failing input): with mock field License Plate present,
submitting a new field named License Plate surrounded by whitespace passes
validation, because the duplicate check compares the untrimmed submission,
while the saved name is the trimmed submission; the saved schema then
holds two fields with case-insensitively equal (here: identical) names,
contradicting the claimed DuplicateName rejection and the claimed schema
invariant. -/
theorem addField_whitespace_duplicate_accepted :
    submitField [licensePlateField] none "99"
      { name := " License Plate ", type := FieldType.text, options := [],
        required := false }
      = FieldSaveResult.ok [licensePlateField,
          { id := "99", name := "License Plate", type := FieldType.text,
            options := none, required := false }]
    ∧ ¬ namesCaseInsensitivelyDistinct [licensePlateField,
          { id := "99", name := "License Plate", type := FieldType.text,
            options := none, required := false }] := by
  constructor
  · decide
  · intro h
    have := List.rel_of_pairwise_cons h (List.mem_singleton.mpr rfl)
    exact this (by decide)

/-- Every dropdown field of a schema carries at least one option. -/
def dropdownOptionsNonempty (fields : List CustomField) : Prop :=
  ∀ f ∈ fields, f.type = FieldType.dropdown → 1 ≤ (f.options.getD []).length

/-- Claim C5: submitting a dropdown field with an empty options list is
rejected with the EmptyOptions error and never yields a new schema; and a
successful addField or updateField preserves the invariant that every
dropdown field of the schema has at least one option. -/
theorem submitField_dropdown_options_spec
    (fields : List CustomField) (editing : Option CustomField)
    (newId : String) (fd : FieldFormData) :
    (fd.type = FieldType.dropdown → fd.options = [] →
      ("options", "At least one option is required for dropdown fields")
          ∈ validateFieldForm fields (editing.map (fun f => f.id)) fd
      ∧ ∀ fs, submitField fields editing newId fd ≠ FieldSaveResult.ok fs)
    ∧ (dropdownOptionsNonempty fields →
        ∀ fs, submitField fields editing newId fd = FieldSaveResult.ok fs →
          dropdownOptionsNonempty fs) := by
  constructor
  · intro htype hopts
    have hmem : ("options", "At least one option is required for dropdown fields")
        ∈ validateFieldForm fields (editing.map (fun f => f.id)) fd := by
      unfold validateFieldForm
      apply List.mem_append_right
      have hc : fd.type = FieldType.dropdown ∧ fd.options.length = 0 :=
        ⟨htype, by simp [hopts]⟩
      rw [if_pos hc]
      exact List.mem_singleton.mpr rfl
    refine ⟨hmem, ?_⟩
    intro fs h
    unfold submitField at h
    rw [if_neg (List.ne_nil_of_mem hmem)] at h
    exact FieldSaveResult.noConfusion h
  · intro hinv fs h
    unfold submitField at h
    by_cases herrs : validateFieldForm fields (editing.map (fun f => f.id)) fd = []
    · rw [if_pos herrs] at h
      have hnew : fd.type = FieldType.dropdown →
          1 ≤ ((fieldDataOf editing newId fd).options.getD []).length := by
        intro htype
        have hne : ¬ (fd.type = FieldType.dropdown ∧ fd.options.length = 0) := by
          intro hc
          have : validateFieldForm fields (editing.map (fun f => f.id)) fd ≠ [] := by
            unfold validateFieldForm
            rw [if_pos hc]
            intro hnil
            exact List.ne_nil_of_mem
              (List.mem_append_right _ (List.mem_singleton.mpr rfl)) hnil
          exact this herrs
        have hlen : fd.options.length ≠ 0 := fun hz => hne ⟨htype, hz⟩
        unfold fieldDataOf
        simp only [if_pos htype, Option.getD_some]
        omega
      have htype_eq : (fieldDataOf editing newId fd).type = fd.type := rfl
      cases editing with
      | none =>
          cases h
          intro f hf htf
          rcases List.mem_append.mp hf with hf1 | hf2
          · exact hinv f hf1 htf
          · rw [List.mem_singleton.mp hf2] at htf ⊢
            exact hnew (htype_eq ▸ htf)
      | some e =>
          cases h
          intro f hf htf
          rcases List.mem_map.mp hf with ⟨g, hg, hgf⟩
          by_cases hid : g.id = e.id
          · rw [if_pos hid] at hgf
            rw [← hgf] at htf ⊢
            exact hnew (htype_eq ▸ htf)
          · rw [if_neg hid] at hgf
            rw [← hgf] at htf ⊢
            exact hinv g hg htf
    · rw [if_neg herrs] at h
      exact absurd h (by intro hc; exact FieldSaveResult.noConfusion hc)

/-- Concrete instance of C5: an empty dropdown submission is rejected, and
a successful dropdown submission with one option lands in a schema whose
dropdown fields all carry at least one option. -/
theorem submitField_dropdown_options_spec_witness :
    (("options", "At least one option is required for dropdown fields")
        ∈ validateFieldForm [] none
          { name := "Fuel Type", type := FieldType.dropdown, options := [],
            required := false }
      ∧ ∀ fs, submitField [] none "4"
          { name := "Fuel Type", type := FieldType.dropdown, options := [],
            required := false } ≠ FieldSaveResult.ok fs)
    ∧ dropdownOptionsNonempty [licensePlateField,
        { id := "4", name := "Fuel Type", type := FieldType.dropdown,
          options := some [{ value := "Diesel", color := none }],
          required := false }] := by
  constructor
  · exact (submitField_dropdown_options_spec [] none "4"
      { name := "Fuel Type", type := FieldType.dropdown, options := [],
        required := false }).1 rfl rfl
  · exact (submitField_dropdown_options_spec [licensePlateField] none "4"
      { name := "Fuel Type", type := FieldType.dropdown,
        options := [{ value := "Diesel", color := none }],
        required := false }).2
      (by intro f hf htf; simp only [List.mem_singleton] at hf; rw [hf] at htf; exact absurd htf (by decide))
      _ (by decide)

/-- Mock reminder 3 of the source data (already complete). Day 19742 is
2024-01-20. -/
def mockReminder3 : Reminder :=
  { id := "3", vehicleId := "3", description := "Brake inspection",
    triggerType := TriggerType.date, triggerValue := TriggerValue.date 19742,
    status := RStatus.complete, completedAt := some "2024-01-18 14:30",
    completedBy := some "Mike Wilson" }

/-- Claim C8 (counterexample): applying handleCompleteReminder to the
already-complete mock reminder 3 at a later clock reading overwrites
completedAt (and completedBy) with the new values, so completing is not
idempotent in effect as claimed. -/
theorem handleCompleteReminder_recomplete_changes :
    mockReminder3.status = RStatus.complete
    ∧ (handleCompleteReminder [mockReminder3] "3" "2024-02-01 09:00").map
        Reminder.completedAt = [some "2024-02-01 09:00"]
    ∧ (handleCompleteReminder [mockReminder3] "3" "2024-02-01 09:00").map
        Reminder.completedBy = [some "Current User"]
    ∧ mockReminder3.completedAt ≠ some "2024-02-01 09:00"
    ∧ mockReminder3.completedBy ≠ some "Current User" := by
  refine ⟨rfl, rfl, rfl, ?_, ?_⟩ <;> decide

/-- Claim C8 (amended): handleCompleteReminder overwrites completedAt with
the current clock string and completedBy with the current user even when
the reminder is already complete; the operation is idempotent only for a
fixed clock reading: applying it twice with the same clock string equals
applying it once. -/
theorem handleCompleteReminder_idempotent_fixed_clock
    (reminders : List Reminder) (reminderId nowStr : String) :
    handleCompleteReminder (handleCompleteReminder reminders reminderId nowStr)
        reminderId nowStr
      = handleCompleteReminder reminders reminderId nowStr := by
  unfold handleCompleteReminder
  rw [List.map_map]
  apply List.map_congr_left
  intro r _
  by_cases h : r.id = reminderId
  · simp [h]
  · simp [h]

/-- Mock vehicle 1 of the source data. -/
def mockVehicle1 : Vehicle :=
  { id := "1", name := "Fleet Van 001", status := VStatus.available,
    mileage := 45670,
    customFields := [("vehicleType", CFValue.vStr "Cargo Van"),
                     ("licensePlate", CFValue.vStr "ABC-123"),
                     ("year", CFValue.vNum 2022)],
    documents := ["insurance.pdf", "registration.pdf"],
    lastUpdated := "2024-01-15 10:30", updatedBy := "John Smith" }

/-- FleetDashboard component state: the three in-memory collections. -/
structure DashboardState where
  vehicles : List Vehicle
  customFields : List CustomField
  reminders : List Reminder
deriving DecidableEq, Repr

/-- FieldManager handleDeleteField as wired into FleetDashboard: the
schema is filtered by id, nothing else is touched. -/
def handleDeleteField (s : DashboardState) (fieldId : String) : DashboardState :=
  { s with customFields := s.customFields.filter (fun f => !(f.id == fieldId)) }

/-- FleetDashboard onDeleteVehicle: the vehicle list is filtered by id,
nothing else is touched. -/
def onDeleteVehicle (s : DashboardState) (vehicleId : String) : DashboardState :=
  { s with vehicles := s.vehicles.filter (fun v => !(v.id == vehicleId)) }

/-- Claim C9: removeField always succeeds, the resulting schema is the
original with the fields of that id removed, and the vehicle collection
(hence every stored custom-field value) and the reminder collection are
left entirely unchanged. -/
theorem handleDeleteField_frame (s : DashboardState) (fieldId : String) :
    (handleDeleteField s fieldId).customFields
        = s.customFields.filter (fun f => !(f.id == fieldId))
    ∧ (handleDeleteField s fieldId).vehicles = s.vehicles
    ∧ (handleDeleteField s fieldId).reminders = s.reminders
    ∧ (∀ v ∈ s.vehicles, v ∈ (handleDeleteField s fieldId).vehicles
        ∧ ∀ nm : String, ∀ val : CFValue, (nm, val) ∈ v.customFields →
            ∃ w ∈ (handleDeleteField s fieldId).vehicles,
              w.id = v.id ∧ (nm, val) ∈ w.customFields) := by
  exact ⟨rfl, rfl, rfl, fun v hv => ⟨hv, fun nm val hval => ⟨v, hv, rfl, hval⟩⟩⟩

/-- Claim C10: deleting a vehicle filters only the vehicle collection; the
reminder collection is unchanged, every reminder (in particular one whose
vehicleId references the deleted vehicle) survives intact, and the deleted
id subsequently reads mileage 0 in the due-state evaluator. -/
theorem onDeleteVehicle_frame (s : DashboardState) (vehicleId : String) :
    (onDeleteVehicle s vehicleId).vehicles
        = s.vehicles.filter (fun v => !(v.id == vehicleId))
    ∧ (onDeleteVehicle s vehicleId).reminders = s.reminders
    ∧ (onDeleteVehicle s vehicleId).customFields = s.customFields
    ∧ (∀ r ∈ s.reminders, r ∈ (onDeleteVehicle s vehicleId).reminders)
    ∧ getCurrentMileage (onDeleteVehicle s vehicleId).vehicles vehicleId = 0 := by
  refine ⟨rfl, rfl, rfl, fun r hr => hr, ?_⟩
  have hfind : ((onDeleteVehicle s vehicleId).vehicles.find?
      (fun v => v.id == vehicleId)) = none := by
    apply List.find?_eq_none.mpr
    intro v hv
    have := (List.mem_filter.mp hv).2
    simp only [Bool.not_eq_true'] at this
    simp [this]
  unfold getCurrentMileage
  rw [hfind]

/-- Concrete instance of C9: deleting the License Plate field from a
populated state empties the schema and leaves the vehicle and reminder
collections untouched. -/
theorem handleDeleteField_frame_witness :
    (handleDeleteField
        { vehicles := [mockVehicle1], customFields := [licensePlateField],
          reminders := [mockReminder3] } "2").vehicles = [mockVehicle1]
    ∧ (handleDeleteField
        { vehicles := [mockVehicle1], customFields := [licensePlateField],
          reminders := [mockReminder3] } "2").reminders = [mockReminder3]
    ∧ (handleDeleteField
        { vehicles := [mockVehicle1], customFields := [licensePlateField],
          reminders := [mockReminder3] } "2").customFields = [] :=
  ⟨(handleDeleteField_frame
      { vehicles := [mockVehicle1], customFields := [licensePlateField],
        reminders := [mockReminder3] } "2").2.1,
   (handleDeleteField_frame
      { vehicles := [mockVehicle1], customFields := [licensePlateField],
        reminders := [mockReminder3] } "2").2.2.1,
   ((handleDeleteField_frame
      { vehicles := [mockVehicle1], customFields := [licensePlateField],
        reminders := [mockReminder3] } "2").1).trans (by decide)⟩

/-- Concrete instance of C10: deleting vehicle 1 empties the vehicle
collection, keeps the reminder collection unchanged, and the deleted id
afterwards reads mileage 0. -/
theorem onDeleteVehicle_frame_witness :
    (onDeleteVehicle
        { vehicles := [mockVehicle1], customFields := [licensePlateField],
          reminders := [mockReminder3] } "1").vehicles = []
    ∧ (onDeleteVehicle
        { vehicles := [mockVehicle1], customFields := [licensePlateField],
          reminders := [mockReminder3] } "1").reminders = [mockReminder3]
    ∧ getCurrentMileage (onDeleteVehicle
        { vehicles := [mockVehicle1], customFields := [licensePlateField],
          reminders := [mockReminder3] } "1").vehicles "1" = 0 :=
  ⟨((onDeleteVehicle_frame
      { vehicles := [mockVehicle1], customFields := [licensePlateField],
        reminders := [mockReminder3] } "1").1).trans (by decide),
   (onDeleteVehicle_frame
      { vehicles := [mockVehicle1], customFields := [licensePlateField],
        reminders := [mockReminder3] } "1").2.1,
   (onDeleteVehicle_frame
      { vehicles := [mockVehicle1], customFields := [licensePlateField],
        reminders := [mockReminder3] } "1").2.2.2.2⟩

/-- In-progress vehicle edit state of VehicleForm (formData). -/
structure VehicleFormData where
  name : String
  status : VStatus
  mileage : Int
  customFields : List (String × CFValue)
  documents : List String
deriving DecidableEq, Repr

/-- VehicleForm validateForm: an empty (after trim) name and a negative
mileage are rejected; each required custom field whose value in the edit
is falsy contributes an error keyed custom_ followed by the field id. -/
def validateVehicleForm (customFields : List CustomField)
    (fd : VehicleFormData) : List (String × String) :=
  (if jsTrim fd.name = "" then [("name", "Vehicle name is required")] else [])
  ++ (if fd.mileage < 0 then [("mileage", "Mileage cannot be negative")] else [])
  ++ customFields.filterMap (fun field =>
      if field.required && isFalsyOpt (fd.customFields.lookup field.name) then
        some ("custom_" ++ field.id, field.name ++ " is required")
      else none)

/-- FleetDashboard handleSaveVehicle: when editing, the edit snapshot
overwrites the mutable fields of the vehicle with the matching id and the
audit fields are restamped; when adding, a fresh vehicle is appended (the
source applies the JavaScript || defaults to name and mileage; status,
customFields and documents are always-truthy values of the form state). -/
def handleSaveVehicle (vehicles : List Vehicle) (editing : Option Vehicle)
    (fd : VehicleFormData) (newId nowStr : String) : List Vehicle :=
  match editing with
  | some e => vehicles.map (fun v =>
      if v.id = e.id then
        { v with name := fd.name, status := fd.status, mileage := fd.mileage,
                 customFields := fd.customFields, documents := fd.documents,
                 lastUpdated := nowStr, updatedBy := "Current User" }
      else v)
  | none => vehicles ++
      [{ id := newId, name := jsOrStr fd.name "", status := fd.status,
         mileage := jsOrInt fd.mileage 0, customFields := fd.customFields,
         documents := fd.documents, lastUpdated := nowStr,
         updatedBy := "Current User" }]

/-- VehicleForm handleSubmit wired to FleetDashboard handleSaveVehicle:
validation runs synchronously on submit and any error blocks the save. -/
def submitVehicle (vehicles : List Vehicle) (customFields : List CustomField)
    (editing : Option Vehicle) (fd : VehicleFormData) (newId nowStr : String) :
    Option (List Vehicle) :=
  if validateVehicleForm customFields fd = [] then
    some (handleSaveVehicle vehicles editing fd newId nowStr)
  else none

/-- Claim C6: a vehicle edit with negative mileage is rejected by
validation (the mileage error is raised and the commit is blocked), and
any successful save on a store whose vehicles all have non-negative
mileage yields a store whose vehicles all have non-negative mileage. -/
theorem submitVehicle_mileage_nonneg
    (vehicles : List Vehicle) (customFields : List CustomField)
    (editing : Option Vehicle) (fd : VehicleFormData) (newId nowStr : String) :
    (fd.mileage < 0 →
      ("mileage", "Mileage cannot be negative")
          ∈ validateVehicleForm customFields fd
      ∧ submitVehicle vehicles customFields editing fd newId nowStr = none)
    ∧ ((∀ v ∈ vehicles, 0 ≤ v.mileage) →
        ∀ vs, submitVehicle vehicles customFields editing fd newId nowStr = some vs →
          ∀ v ∈ vs, 0 ≤ v.mileage) := by
  have hmem_of_neg : fd.mileage < 0 →
      ("mileage", "Mileage cannot be negative")
        ∈ validateVehicleForm customFields fd := by
    intro hneg
    unfold validateVehicleForm
    apply List.mem_append_left
    apply List.mem_append_right
    rw [if_pos hneg]
    exact List.mem_singleton.mpr rfl
  constructor
  · intro hneg
    refine ⟨hmem_of_neg hneg, ?_⟩
    unfold submitVehicle
    rw [if_neg (List.ne_nil_of_mem (hmem_of_neg hneg))]
  · intro hinv vs hvs
    unfold submitVehicle at hvs
    by_cases hval : validateVehicleForm customFields fd = []
    · rw [if_pos hval] at hvs
      have h0 : 0 ≤ fd.mileage := by
        by_contra hneg
        exact List.ne_nil_of_mem (hmem_of_neg (by omega)) hval
      cases hvs
      unfold handleSaveVehicle
      cases editing with
      | none =>
          intro v hv
          rcases List.mem_append.mp hv with hv1 | hv2
          · exact hinv v hv1
          · rw [List.mem_singleton.mp hv2]
            unfold jsOrInt
            by_cases hz : fd.mileage = 0
            · simp [hz]
            · simp only [if_neg hz]
              exact h0
      | some e =>
          intro v hv
          rcases List.mem_map.mp hv with ⟨g, hg, hgv⟩
          by_cases hid : g.id = e.id
          · rw [if_pos hid] at hgv
            rw [← hgv]
            exact h0
          · rw [if_neg hid] at hgv
            rw [← hgv]
            exact hinv g hg
    · rw [if_neg hval] at hvs
      exact absurd hvs (by intro hc; exact Option.noConfusion hc)

/-- The vehicle record produced by the successful save of the C6 witness. -/
def vanA9 : Vehicle :=
  { id := "9", name := "Van A", status := VStatus.available, mileage := 100,
    customFields := [], documents := [], lastUpdated := "2024-01-15 10:30",
    updatedBy := "Current User" }

/-- Concrete instance of C6: a save at mileage -5 is blocked, and a
successful add at mileage 100 onto the empty store leaves every stored
vehicle with non-negative mileage. -/
theorem submitVehicle_mileage_nonneg_witness :
    submitVehicle [] [] none
      { name := "Van A", status := VStatus.available, mileage := -5,
        customFields := [], documents := [] } "9" "2024-01-15 10:30" = none
    ∧ (∀ v ∈ [vanA9], 0 ≤ v.mileage) := by
  constructor
  · exact ((submitVehicle_mileage_nonneg [] [] none
      { name := "Van A", status := VStatus.available, mileage := -5,
        customFields := [], documents := [] } "9" "2024-01-15 10:30").1
      (by decide)).2
  · exact (submitVehicle_mileage_nonneg [] [] none
      { name := "Van A", status := VStatus.available, mileage := 100,
        customFields := [], documents := [] } "9" "2024-01-15 10:30").2
      (by intro v hv; cases hv) _ (by decide)

/-- Claim C7: the vehicle-form validation errors keyed custom_ plus a
field id are exactly those of the schema fields with that id that are
required and whose value in the edit is falsy or absent; consequently a
non-required field never contributes such an error, and an edit with a
non-empty name, non-negative mileage and no required field left falsy
validates cleanly, so the save goes through. -/
theorem validateVehicleForm_custom_spec
    (customFields : List CustomField) (fd : VehicleFormData) :
    (∀ i : String,
      (∃ msg, ("custom_" ++ i, msg) ∈ validateVehicleForm customFields fd) ↔
      ∃ f ∈ customFields, f.id = i ∧ f.required = true
        ∧ isFalsyOpt (fd.customFields.lookup f.name) = true)
    ∧ (jsTrim fd.name ≠ "" → 0 ≤ fd.mileage →
        (∀ f ∈ customFields, f.required = true →
          isFalsyOpt (fd.customFields.lookup f.name) = false) →
        validateVehicleForm customFields fd = []) := by
  have hclen : ∀ i : String, ("custom_" ++ i).length = 7 + i.length := by
    intro i
    rw [String.length_append]
    rfl
  constructor
  · intro i
    constructor
    · rintro ⟨msg, hmem⟩
      unfold validateVehicleForm at hmem
      rcases List.mem_append.mp hmem with h12 | h3
      · exfalso
        rcases List.mem_append.mp h12 with h1 | h2
        · by_cases hc : jsTrim fd.name = ""
          · rw [if_pos hc] at h1
            have hkey : "custom_" ++ i = "name" :=
              congrArg Prod.fst (List.mem_singleton.mp h1)
            have hlen := congrArg String.length hkey
            rw [hclen] at hlen
            have hn : ("name" : String).length = 4 := rfl
            rw [hn] at hlen
            omega
          · rw [if_neg hc] at h1
            exact absurd h1 (List.not_mem_nil _)
        · by_cases hc : fd.mileage < 0
          · rw [if_pos hc] at h2
            have hkey : "custom_" ++ i = "mileage" :=
              congrArg Prod.fst (List.mem_singleton.mp h2)
            have hlen := congrArg String.length hkey
            rw [hclen] at hlen
            have hm : ("mileage" : String).length = 7 := rfl
            rw [hm] at hlen
            have hi0 : i.length = 0 := by omega
            have hie : i = "" := by
              cases i with
              | mk data =>
                  cases data with
                  | nil => rfl
                  | cons c cs =>
                      exfalso
                      have hsc : (String.mk (c :: cs)).length = cs.length + 1 := rfl
                      omega
            rw [hie] at hkey
            exact absurd hkey (by decide)
          · rw [if_neg hc] at h2
            exact absurd h2 (List.not_mem_nil _)
      · rcases List.mem_filterMap.mp h3 with ⟨f, hf, hsome⟩
        by_cases hc : (f.required && isFalsyOpt (fd.customFields.lookup f.name)) = true
        · rw [if_pos hc] at hsome
          have hpair := Option.some.inj hsome
          have hkey : "custom_" ++ f.id = "custom_" ++ i := congrArg Prod.fst hpair
          have hid : f.id = i := by
            have hdata := congrArg String.data hkey
            simp only [String.data_append] at hdata
            exact String.ext (List.append_cancel_left hdata)
          have hc' := hc
          simp only [Bool.and_eq_true] at hc'
          exact ⟨f, hf, hid, hc'.1, hc'.2⟩
        · rw [if_neg hc] at hsome
          exact absurd hsome (by intro h; exact Option.noConfusion h)
    · rintro ⟨f, hf, hid, hreq, hfalsy⟩
      refine ⟨f.name ++ " is required", ?_⟩
      unfold validateVehicleForm
      apply List.mem_append_right
      apply List.mem_filterMap.mpr
      refine ⟨f, hf, ?_⟩
      rw [if_pos (by simp [hreq, hfalsy]), hid]
  · intro hname hmil hreqs
    unfold validateVehicleForm
    rw [if_neg hname, if_neg (by omega : ¬ fd.mileage < 0)]
    rw [List.filterMap_eq_nil_iff.mpr ?_]
    · rfl
    · intro f hf
      rw [if_neg ?_]
      intro hc
      simp only [Bool.and_eq_true] at hc
      rw [hreqs f hf hc.1] at hc
      exact Bool.false_ne_true hc.2

/-- Concrete instance of C7, the scenario from the spec: with the schema
holding only the non-required Year field, the edit Van A at mileage 100
with no custom values validates with no errors. -/
theorem validateVehicleForm_custom_spec_witness :
    validateVehicleForm
      [{ id := "3", name := "Year", type := FieldType.number, options := none,
         required := false }]
      { name := "Van A", status := VStatus.available, mileage := 100,
        customFields := [], documents := [] } = [] :=
  (validateVehicleForm_custom_spec
    [{ id := "3", name := "Year", type := FieldType.number, options := none,
       required := false }]
    { name := "Van A", status := VStatus.available, mileage := 100,
      customFields := [], documents := [] }).2
    (by decide) (by decide)
    (by
      intro f hf hreq
      simp only [List.mem_singleton] at hf
      rw [hf] at hreq
      exact absurd hreq (by decide))

end VanVision
